import Mathlib

/-!
# Verification of the Raspberry Pi print server request handling

Shallow embedding of `src/print_server.py` and `src/config.py`.

The server's logic is pure string manipulation over the stdout/stderr and
exit codes of two spooler commands (`lp`, `lpstat`), plus an API-key guard
and copy-count clamping.  Subprocess execution is modelled by a
`ProcBehavior` value describing how the spawned command behaves
(completion with an exit code and captured output, a timeout, or any other
exception raised during spawning).  All the string manipulation follows
Python semantics: `str.split(sep)` is `String.splitOn`, `str.split()` is
splitting on whitespace runs discarding empties, `str.strip()` trims
whitespace at both ends, `sub in s` is substring containment.
-/

/-- Python whitespace characters (ASCII range, as used by `str.split()` and
`str.strip()`). -/
def isPySpace (c : Char) : Bool :=
  c = ' ' || c = '\t' || c = '\n' || c = '\r' || c = '\x0b' || c = '\x0c'

/-- Python `s.strip()`: remove leading and trailing whitespace. -/
def pyStrip (s : String) : String :=
  (((s.data.dropWhile isPySpace).reverse.dropWhile isPySpace).reverse).asString

/-- Split a character list at every character satisfying `p` (keeping empty
pieces), by structural recursion. -/
def splitPred (p : Char → Bool) : List Char → List (List Char)
  | [] => [[]]
  | c :: cs =>
    match splitPred p cs with
    | [] => [[]]
    | q :: qs => if p c then [] :: q :: qs else (c :: q) :: qs

/-- Python `s.split()` (no separator): split on whitespace, discarding
empty pieces, which collapses whitespace runs and trims the ends. -/
def pySplitWs (s : String) : List String :=
  ((splitPred isPySpace s.data).map List.asString).filter (fun t => t ≠ "")

/-- Worker for `pySplit`: split `cs` at every occurrence of the non-empty
separator `sep`, accumulating the current piece in reverse in `acc`.
Each call consumes at least one character, so `fuel = cs.length` never
runs out; the fuel makes the recursion structural. -/
def splitOnFuel (sep : List Char) : Nat → List Char → List Char → List (List Char)
  | _, [], acc => [acc.reverse]
  | 0, cs, acc => [acc.reverse ++ cs]
  | fuel + 1, c :: rest, acc =>
    if sep.isPrefixOf (c :: rest) then
      acc.reverse :: splitOnFuel sep fuel (rest.drop (sep.length - 1)) []
    else
      splitOnFuel sep fuel rest (c :: acc)

/-- Python `s.split(sep)` for a non-empty separator: one piece more than
there are (non-overlapping, leftmost) occurrences of `sep`, empty pieces
kept. -/
def pySplit (s sep : String) : List String :=
  if sep = "" then [s]
  else (splitOnFuel sep.data s.data.length s.data []).map List.asString

/-- Python `sub in s` for a non-empty `sub`: substring containment.
`split` produces one more piece than there are occurrences. -/
def pyContains (s sub : String) : Bool :=
  (pySplit s sub).length ≥ 2

/-- Python `s.startswith(pre)`. -/
def pyStartsWith (s pre : String) : Bool :=
  pre.data.isPrefixOf s.data

/-- Value of a list of decimal digit characters. -/
def digitsToNat (cs : List Char) : Nat :=
  cs.foldl (fun a c => a * 10 + (c.toNat - 48)) 0

/-- Model of Python `int(s)` on strings: optional surrounding whitespace,
optional sign, one or more ASCII decimal digits; `none` models the
`ValueError` raised on any other input.  (Digit-group underscores and
non-ASCII decimal digits, which CPython also accepts, are out of scope;
the claims quantify over the outcome of parsing, not over its extent.) -/
def pyInt (s : String) : Option Int :=
  let t := (pyStrip s).data
  let core : List Char :=
    match t with
    | '-' :: rest => rest
    | '+' :: rest => rest
    | cs => cs
  if core ≠ [] && core.all Char.isDigit then
    let n : Int := Int.ofNat (digitsToNat core)
    some (if t.head? = some '-' then -n else n)
  else
    none

/-! ## Configuration (`src/config.py`) -/

/-- Environment-derived configuration fields of `Config`.  `API_KEY` comes
from `PRINT_API_KEY` (default `CHANGE_ME_GENERATE_A_SECURE_KEY`),
`PRINTER_NAME` from `PRINTER_NAME` (default `""` = use system default). -/
structure Config where
  API_KEY : String
  PRINTER_NAME : String
deriving DecidableEq

/-- `Config.MAX_COPIES = 10`. -/
def Config.MAX_COPIES : Int := 10

/-- `Config.PRINT_OPTIONS` literal from `config.py`. -/
def Config.PRINT_OPTIONS : List String :=
  ["fit-to-page", "media=A4.Borderless"]

/-! ## Subprocess model -/

/-- Captured result of a subprocess that ran to completion
(`subprocess.run(..., capture_output=True, text=True)`). -/
structure ProcResult where
  returncode : Int
  stdout : String
  stderr : String
deriving DecidableEq

/-- How a spawned command behaves: normal completion, a
`subprocess.TimeoutExpired`, or any other exception (carrying `str(e)`). -/
inductive ProcBehavior where
  | completes (r : ProcResult)
  | timesOut
  | raises (msg : String)
deriving DecidableEq

/-! ## `print_server.py` definitions -/

/-- `ALLOWED_EXTENSIONS` (the Python set, in source literal order). -/
def ALLOWED_EXTENSIONS : List String :=
  ["png", "jpg", "jpeg", "gif", "bmp", "webp"]

/-- ASCII case lowering of one character, as `str.lower()` acts on the
characters appearing in the extension allow-list. -/
def pyLowerChar (c : Char) : Char :=
  if 'A' ≤ c && c ≤ 'Z' then Char.ofNat (c.toNat + 32) else c

/-- Python `s.lower()` (ASCII range). -/
def pyLower (s : String) : String :=
  (s.data.map pyLowerChar).asString

/-- `allowed_file`: `'.' in filename and
filename.rsplit('.', 1)[1].lower() in ALLOWED_EXTENSIONS`.
`rsplit('.', 1)[1]` is the text after the final period, i.e. the last
piece of the full split. -/
def allowed_file (filename : String) : Bool :=
  pyContains filename "." &&
    ALLOWED_EXTENSIONS.contains (pyLower ((pySplit filename ".").getLastD ""))

/-- `require_api_key` guard: `None` means the request proceeds to the
handler; `some (status, error)` is the early JSON error response.  A
missing header and a present-but-empty header are both falsy in Python,
so both take the 401 branch.  `secrets.compare_digest` is modelled as
string equality (its operands are ASCII in any working deployment). -/
def require_api_key (header : Option String) (apiKey : String) : Option (Nat × String) :=
  match header with
  | none => some (401, "Missing API key")
  | some k =>
    if k = "" then some (401, "Missing API key")
    else if k ≠ apiKey then some (403, "Invalid API key")
    else none

/-- Marker scanned for in `lpstat` output. -/
def DEFAULT_DEST_MARKER : String := "system default destination:"

/-- `get_printer_name`: return the configured name when truthy (non-empty);
otherwise run `lpstat -d` (behaviour `proc`) and parse the default
destination out of its stdout; `None` on failure, timeout, exception,
or missing marker. -/
def get_printer_name (printerName : String) (proc : ProcBehavior) : Option String :=
  if printerName ≠ "" then some printerName
  else
    match proc with
    | .completes r =>
      if r.returncode = 0 && pyContains r.stdout DEFAULT_DEST_MARKER then
        some (pyStrip ((pySplit r.stdout DEFAULT_DEST_MARKER).getD 1 ""))
      else none
    | .timesOut => none
    | .raises _ => none

/-- Result tuple of `print_image`: `(success, message, job_id)`. -/
structure PrintResult where
  success : Bool
  message : String
  jobId : Option String
deriving DecidableEq

/-- The argv list built for the `lp` submission
(`['lp', '-d', printer, '-n', str(copies)]` plus `-o` options plus the
image path). -/
def lp_cmd (printer : String) (copies : Int) (imagePath : String) : List String :=
  ["lp", "-d", printer, "-n", toString copies]
    ++ (if Config.PRINT_OPTIONS ≠ [] then
          Config.PRINT_OPTIONS.foldr (fun o acc => "-o" :: o :: acc) []
        else [])
    ++ [imagePath]

/-- Marker scanned for in `lp` output. -/
def REQUEST_ID_MARKER : String := "request id is"

/-- `print_image`: returns the `(success, message, job_id)` tuple together
with the `lp` argv actually executed (`none` when the spooler is never
invoked because no printer resolved to a truthy name).

On a zero exit code the job id is
`result.stdout.split('request id is')[1].split()[0]`; when the piece
after the first marker occurrence holds no whitespace-delimited token,
the `[0]` raises `IndexError`, which the surrounding
`except Exception as e` turns into `Print error: <str(e)>`. -/
def print_image (printer : Option String) (copies : Int) (imagePath : String)
    (proc : ProcBehavior) : PrintResult × Option (List String) :=
  match printer with
  | none => (⟨false, "No printer configured or found", none⟩, none)
  | some p =>
    if p = "" then (⟨false, "No printer configured or found", none⟩, none)
    else
      let cmd := lp_cmd p copies imagePath
      match proc with
      | .completes r =>
        if r.returncode = 0 then
          if pyContains r.stdout REQUEST_ID_MARKER then
            match pySplitWs ((pySplit r.stdout REQUEST_ID_MARKER).getD 1 "") with
            | [] => (⟨false, "Print error: list index out of range", none⟩, some cmd)
            | tok :: _ => (⟨true, "Print job submitted successfully", some tok⟩, some cmd)
          else (⟨true, "Print job submitted successfully", none⟩, some cmd)
        else (⟨false, "Print failed: " ++ r.stderr, none⟩, some cmd)
      | .timesOut => (⟨false, "Print command timed out", none⟩, some cmd)
      | .raises msg => (⟨false, "Print error: " ++ msg, none⟩, some cmd)

/-- `copies = int(request.form.get('copies', 1))` then
`copies = max(1, min(copies, Config.MAX_COPIES))`; a `ValueError` skips
the clamping line and sets `copies = 1`. -/
def parse_copies (field : Option String) (maxCopies : Int) : Int :=
  match field with
  | none => max 1 (min 1 maxCopies)
  | some s =>
    match pyInt s with
    | some n => max 1 (min n maxCopies)
    | none => 1

/-- The pieces of an incoming `POST /print` request the handler looks at:
the `X-API-Key` header, the filename of the `image` file field (`none`
when the field is absent), and the raw `copies` form value. -/
structure PrintRequest where
  apiKeyHeader : Option String
  imageField : Option String
  copiesField : Option String
deriving DecidableEq

/-- JSON responses of the two authenticated endpoints. -/
inductive Response where
  /-- `{'error': msg}` with the given status (400/401/403, and 500 for
  `/printers` failures). -/
  | fail (status : Nat) (error : String)
  /-- 200 `{'success': True, 'message': ..., 'job_id': ..., 'copies': ...}`. -/
  | printSuccess (message : String) (jobId : Option String) (copies : Int)
  /-- 500 `{'success': False, 'error': msg}`. -/
  | printFailure (error : String)
  /-- 200 `{'printers': ..., 'default': ..., 'configured': ...}`. -/
  | printerList (printers : List String) (dflt : Option String) (configured : String)
deriving DecidableEq

/-- HTTP status code of a response. -/
def Response.status : Response → Nat
  | .fail s _ => s
  | .printSuccess _ _ _ => 200
  | .printFailure _ => 500
  | .printerList _ _ _ => 200

/-- The 400 message for a disallowed extension
(`', '.join(ALLOWED_EXTENSIONS)` in source literal order). -/
def EXT_ERROR_MSG : String :=
  "File type not allowed. Allowed types: " ++ String.intercalate ", " ALLOWED_EXTENSIONS

/-- `print_endpoint`: the `POST /print` handler.  `tempPath` is the
OS-chosen name of the temporary file, `lpstatProc` the behaviour of the
`lpstat -d` run inside `get_printer_name` and `lpProc` that of the `lp`
submission.  Returns the response together with the `lp` argv executed
(`none` when the spooler was never invoked). -/
def print_endpoint (cfg : Config) (req : PrintRequest) (tempPath : String)
    (lpstatProc lpProc : ProcBehavior) : Response × Option (List String) :=
  match require_api_key req.apiKeyHeader cfg.API_KEY with
  | some (code, msg) => (.fail code msg, none)
  | none =>
    match req.imageField with
    | none => (.fail 400 "No image file provided", none)
    | some filename =>
      if filename = "" then (.fail 400 "No file selected", none)
      else if allowed_file filename = false then (.fail 400 EXT_ERROR_MSG, none)
      else
        match print_image (get_printer_name cfg.PRINTER_NAME lpstatProc)
            (parse_copies req.copiesField Config.MAX_COPIES) tempPath lpProc with
        | (pr, cmd) =>
          if pr.success then
            (.printSuccess pr.message pr.jobId
              (parse_copies req.copiesField Config.MAX_COPIES), cmd)
          else (.printFailure pr.message, cmd)

/-- One step of the parsing loop in `list_printers`: a line starting with
`'printer '` whose whitespace split has at least two tokens appends its
second token to the printer list; otherwise (`elif`) a line containing
the default-destination marker overwrites the default. -/
def lpstat_line_step (acc : List String × Option String) (line : String) :
    List String × Option String :=
  if pyStartsWith line "printer " then
    let parts := pySplitWs line
    if parts.length ≥ 2 then (acc.1 ++ [parts.getD 1 ""], acc.2) else acc
  else if pyContains line DEFAULT_DEST_MARKER then
    (acc.1, some (pyStrip ((pySplit line DEFAULT_DEST_MARKER).getD 1 "")))
  else acc

/-- The `for line in result.stdout.split('\n')` loop of `list_printers`,
starting from `printers = []`, `default_printer = None`. -/
def parse_lpstat (stdout : String) : List String × Option String :=
  (pySplit stdout "\n").foldl lpstat_line_step ([], none)

/-- Model of `str(subprocess.TimeoutExpired(...))` for the `lpstat -p -d`
run; the claims never inspect this text. -/
def LPSTAT_TIMEOUT_MSG : String :=
  "Command lpstat -p -d timed out after 10 seconds"

/-- `list_printers`: the `GET /printers` handler.  Note that the handler
parses `result.stdout` without ever looking at `result.returncode`; only
an exception (timeout included) reaches the `except` clause that returns
a 500. -/
def list_printers (cfg : Config) (header : Option String) (proc : ProcBehavior) :
    Response :=
  match require_api_key header cfg.API_KEY with
  | some (code, msg) => .fail code msg
  | none =>
    match proc with
    | .completes r =>
      .printerList (parse_lpstat r.stdout).1 (parse_lpstat r.stdout).2 cfg.PRINTER_NAME
    | .timesOut => .fail 500 LPSTAT_TIMEOUT_MSG
    | .raises msg => .fail 500 msg

/-! ## Temporary-file lifecycle of `print_endpoint`

The handler writes the upload to a fresh uniquely named temporary file and
wraps the print attempt in `try: ... finally: try: os.unlink(temp_path)
except Exception: pass`.  The filesystem is a list of existing paths; the
body of the `try` either produces a response or raises, and the `unlink`
either succeeds or itself raises (`ioFails`). -/

/-- How the `try` body of `print_endpoint` ends: with a JSON response, or
by raising an exception that propagates past the `finally`. -/
inductive HandlerExit where
  | response (r : Response)
  | exception (e : String)
deriving DecidableEq

/-- `os.unlink(p)`: removes `p` from the filesystem; raises (`.error`) when
the call fails (`ioFails`) or the file does not exist. -/
def os_unlink (fs : List String) (p : String) (ioFails : Bool) :
    Except String (List String) :=
  if ioFails then .error "OSError"
  else if fs.contains p then .ok (fs.filter (fun q => q != p))
  else .error "FileNotFoundError"

/-- The `finally` block: attempt the unlink, swallow any failure
(`except Exception: pass`), and propagate the body's outcome unchanged. -/
def cleanup_finally (fs : List String) (tempPath : String) (ioFails : Bool)
    (body : HandlerExit) : List String × HandlerExit :=
  match os_unlink fs tempPath ioFails with
  | .ok fs2 => (fs2, body)
  | .error _ => (fs, body)

/-- The whole lifecycle: the `with tempfile.NamedTemporaryFile(...)` block
creates the file (adds `tempPath` to the filesystem), then the guarded
body runs and the `finally` cleans up. -/
def print_with_cleanup (fs : List String) (tempPath : String) (ioFails : Bool)
    (body : HandlerExit) : List String × HandlerExit :=
  cleanup_finally (tempPath :: fs) tempPath ioFails body

/-- A line the `list_printers` loop treats as a printer line. -/
def printer_line (l : String) : Bool := pyStartsWith l "printer "

/-- The second whitespace-delimited token of a line, when it has one. -/
def second_token (l : String) : Option String := (pySplitWs l).get? 1

/-- A line the loop reads a default destination from: it contains the
marker and was not already consumed as a printer line by the `elif`. -/
def default_line (l : String) : Bool :=
  !printer_line l && pyContains l DEFAULT_DEST_MARKER

/-- The default-printer name parsed out of a default-destination line. -/
def default_name (l : String) : String :=
  pyStrip ((pySplit l DEFAULT_DEST_MARKER).getD 1 "")

/-! ## Helper lemmas -/

/-- A list with fewer than two elements has no element at index 1. -/
theorem get?_one_of_short (xs : List String) (h : xs.length < 2) :
    xs.get? 1 = none := by
  match xs, h with
  | [], _ => rfl
  | [a], _ => rfl

/-- For a list with at least two elements, indexing at 1 with a default
agrees with optional indexing. -/
theorem get?_one_of_long (xs : List String) (d : String) (h : 2 ≤ xs.length) :
    xs.get? 1 = some (xs.getD 1 d) := by
  match xs, h with
  | a :: b :: t, _ => rfl

/-- Indexing at 1 with a default on a list with fewer than two elements
yields the default. -/
theorem getD_one_of_short (xs : List String) (d : String) (h : xs.length < 2) :
    xs.getD 1 d = d := by
  match xs, h with
  | [], _ => rfl
  | [a], _ => rfl

/-- Filtering out every copy of `p` leaves a list that does not contain
`p`. -/
theorem contains_filter_ne (l : List String) (p : String) :
    (l.filter (fun q => q != p)).contains p = false := by
  rw [Bool.eq_false_iff]
  intro hc
  have hm : p ∈ l.filter (fun q => q != p) := List.mem_of_elem_eq_true hc
  have h2 := List.of_mem_filter hm
  simp at h2

/-! ## Claim theorems -/

/-- C10: a request to `POST /print` or `GET /printers` carrying an
`X-API-Key` header whose value is the empty string is answered with
401 `Missing API key`, not 403, for every configuration and every
subprocess behaviour: the guard treats the falsy empty header value
exactly like an absent header. -/
theorem C10_empty_api_key_401 (cfg : Config) (req : PrintRequest) (tempPath : String)
    (p1 p2 p3 : ProcBehavior) (h : req.apiKeyHeader = some "") :
    (print_endpoint cfg req tempPath p1 p2).1 = .fail 401 "Missing API key"
    ∧ list_printers cfg (some "") p3 = .fail 401 "Missing API key" := by
  constructor
  · simp [print_endpoint, require_api_key, h]
  · simp [list_printers, require_api_key]

/-- Witness for C10 at a concrete configuration and request. -/
theorem C10_empty_api_key_401_witness :
    (print_endpoint ⟨"secret123", ""⟩ ⟨some "", some "cat.png", none⟩ "/tmp/t.png"
        .timesOut .timesOut).1 = .fail 401 "Missing API key"
    ∧ list_printers ⟨"secret123", ""⟩ (some "") .timesOut = .fail 401 "Missing API key" :=
  C10_empty_api_key_401 ⟨"secret123", ""⟩ ⟨some "", some "cat.png", none⟩ "/tmp/t.png"
    .timesOut .timesOut .timesOut rfl

/-- C6: the temporary file created for a `/print` request is removed by the
scoped `finally` cleanup no matter how the guarded body ends (response
or exception); a failing deletion is swallowed: the handler's outcome is
unchanged and the file simply stays behind. -/
theorem C6_temp_file_cleanup (fs : List String) (tempPath : String) (body : HandlerExit) :
    (∀ ioFails : Bool, (print_with_cleanup fs tempPath ioFails body).2 = body)
    ∧ (print_with_cleanup fs tempPath false body).1.contains tempPath = false
    ∧ (print_with_cleanup fs tempPath true body).1 = tempPath :: fs := by
  refine ⟨?_, ?_, ?_⟩
  · intro ioFails
    cases ioFails <;>
      simp [print_with_cleanup, cleanup_finally, os_unlink]
  · simp [print_with_cleanup, cleanup_finally, os_unlink,
      contains_filter_ne (tempPath :: fs) tempPath]
  · simp [print_with_cleanup, cleanup_finally, os_unlink]

/-- C7: `get_printer_name` returns the configured printer unconditionally
when it is non-empty (no OS query can change it); with an empty
configuration it returns the stripped text after the
`system default destination:` marker of a successful `lpstat -d` run,
and `none` on a non-zero exit, a timeout, an exception, or output
without the marker. -/
theorem C7_printer_resolution (printerName : String) (proc : ProcBehavior) :
    (printerName ≠ "" → get_printer_name printerName proc = some printerName)
    ∧ (printerName = "" →
        (∀ r : ProcResult, proc = .completes r → r.returncode = 0 →
            pyContains r.stdout DEFAULT_DEST_MARKER = true →
            get_printer_name printerName proc =
              some (pyStrip ((pySplit r.stdout DEFAULT_DEST_MARKER).getD 1 "")))
        ∧ (∀ r : ProcResult, proc = .completes r →
            (r.returncode ≠ 0 ∨ pyContains r.stdout DEFAULT_DEST_MARKER = false) →
            get_printer_name printerName proc = none)
        ∧ (proc = .timesOut → get_printer_name printerName proc = none)
        ∧ (∀ e : String, proc = .raises e → get_printer_name printerName proc = none))
    ∧ get_printer_name "" (.completes ⟨0, "system default destination: Office_Printer\n", ""⟩)
        = some "Office_Printer" := by
  refine ⟨?_, ?_, by decide⟩
  · intro h
    simp [get_printer_name, h]
  · intro h
    subst h
    refine ⟨?_, ?_, ?_, ?_⟩
    · intro r hr h0 hm
      subst hr
      simp [get_printer_name, h0, hm]
    · intro r hr hbad
      subst hr
      rcases hbad with h0 | hm
      · simp [get_printer_name, h0]
      · simp [get_printer_name, hm]
    · intro hr
      subst hr
      simp [get_printer_name]
    · intro e hr
      subst hr
      simp [get_printer_name]

/-- Witness for C7 with a pinned name (`lpstat` failing) and with an empty
configuration and a successful query. -/
theorem C7_printer_resolution_witness :
    get_printer_name "Pinned" .timesOut = some "Pinned"
    ∧ get_printer_name "" (.completes ⟨0, "system default destination: lp0\n", ""⟩)
        = some "lp0" := by
  constructor
  · exact (C7_printer_resolution "Pinned" .timesOut).1 (by decide)
  · have h := ((C7_printer_resolution "" (.completes ⟨0, "system default destination: lp0\n", ""⟩)).2.1
      rfl).1 ⟨0, "system default destination: lp0\n", ""⟩ rfl rfl (by decide)
    rw [h]
    decide

/-- The `lp` argv recorded by `print_image`, when there is one, is the
command built by `lp_cmd`, whose element after `-n` (index 4) is the
stringified copy count. -/
theorem print_image_cmd_copies (printer : Option String) (copies : Int)
    (path : String) (proc : ProcBehavior) (cmd : List String)
    (h : (print_image printer copies path proc).2 = some cmd) :
    cmd.getD 4 "" = toString copies := by
  unfold print_image at h
  split at h
  · simp at h
  next p =>
    split at h
    · simp at h
    · have hc : some (lp_cmd p copies path) = some cmd := by
        rcases proc with r | _ | msg
        · dsimp only at h
          split at h
          · split at h
            · split at h <;> exact h
            · exact h
          · exact h
        · exact h
        · exact h
      rw [Option.some.injEq] at hc
      rw [← hc]
      rfl

/-- C2: a `copies` form value that fails integer parsing silently becomes
1; a value parsing as the integer `n` is clamped to
`max 1 (min n MAX_COPIES)` with `MAX_COPIES = 10`; and the count the
handler echoes in a success response, and places after `-n` in the `lp`
argv, is exactly this parsed-and-clamped value. -/
theorem C2_copies_clamping :
    (∀ s : String, pyInt s = none → parse_copies (some s) Config.MAX_COPIES = 1)
    ∧ (∀ (s : String) (n : Int), pyInt s = some n →
        parse_copies (some s) Config.MAX_COPIES = max 1 (min n Config.MAX_COPIES))
    ∧ Config.MAX_COPIES = 10
    ∧ (∀ (cfg : Config) (req : PrintRequest) (tempPath : String)
        (p1 p2 : ProcBehavior) (m : String) (j : Option String) (c : Int),
        (print_endpoint cfg req tempPath p1 p2).1 = .printSuccess m j c →
        c = parse_copies req.copiesField Config.MAX_COPIES)
    ∧ (∀ (cfg : Config) (req : PrintRequest) (tempPath : String)
        (p1 p2 : ProcBehavior) (cmd : List String),
        (print_endpoint cfg req tempPath p1 p2).2 = some cmd →
        cmd.getD 4 "" = toString (parse_copies req.copiesField Config.MAX_COPIES)) := by
  refine ⟨?_, ?_, rfl, ?_, ?_⟩
  · intro s hs
    simp [parse_copies, hs]
  · intro s n hs
    simp [parse_copies, hs]
  · intro cfg req tempPath p1 p2 m j c h
    unfold print_endpoint at h
    split at h
    · simp at h
    · split at h
      · simp at h
      · split at h
        · simp at h
        · split at h
          · simp at h
          · split at h
            next pr cmd2 hpi =>
              split at h
              · simp only [Prod.fst] at h
                rw [Response.printSuccess.injEq] at h
                exact h.2.2.symm
              · simp at h
  · intro cfg req tempPath p1 p2 cmd h
    unfold print_endpoint at h
    split at h
    · simp at h
    · split at h
      · simp at h
      · split at h
        · simp at h
        · split at h
          · simp at h
          · split at h
            next pr cmd2 hpi =>
              have h2 : (print_image (get_printer_name cfg.PRINTER_NAME p1)
                  (parse_copies req.copiesField Config.MAX_COPIES) tempPath p2).2 = some cmd := by
                rw [hpi]
                split at h <;> simpa using h
              exact print_image_cmd_copies _ _ _ _ _ h2

/-- Witness for C2: the value `99` is clamped to `10`, `abc` falls back to
`1`, and a concrete successful request echoes and submits the clamped
count. -/
theorem C2_copies_clamping_witness :
    parse_copies (some "99") Config.MAX_COPIES = max 1 (min 99 Config.MAX_COPIES)
    ∧ parse_copies (some "abc") Config.MAX_COPIES = 1
    ∧ (3 : Int) = parse_copies (some "3") Config.MAX_COPIES
    ∧ ["lp", "-d", "Office", "-n", "3", "-o", "fit-to-page", "-o", "media=A4.Borderless",
        "/tmp/t.png"].getD 4 ""
        = toString (parse_copies (some "3") Config.MAX_COPIES) := by
  refine ⟨C2_copies_clamping.2.1 "99" 99 (by decide), C2_copies_clamping.1 "abc" (by decide),
    ?_, ?_⟩
  · exact C2_copies_clamping.2.2.2.1 ⟨"k", "Office"⟩ ⟨some "k", some "cat.png", some "3"⟩
      "/tmp/t.png" .timesOut (.completes ⟨0, "request id is O-1 (1 file(s))", ""⟩)
      "Print job submitted successfully" (some "O-1") 3 (by decide)
  · exact C2_copies_clamping.2.2.2.2 ⟨"k", "Office"⟩ ⟨some "k", some "cat.png", some "3"⟩
      "/tmp/t.png" .timesOut (.completes ⟨0, "request id is O-1 (1 file(s))", ""⟩)
      ["lp", "-d", "Office", "-n", "3", "-o", "fit-to-page", "-o", "media=A4.Borderless",
        "/tmp/t.png"] (by decide)

/-- C1 counterexample: a spooler submission that exits 0 with stdout
exactly `request id is` (the pattern present, but no token after it) is
NOT treated as submitted: `split()[0]` raises `IndexError`, the
catch-all turns it into a failure result. -/
theorem C1_zero_exit_not_submitted :
    (print_image (some "Office") 1 "/tmp/img.png"
        (.completes ⟨0, "request id is", ""⟩)).1 =
      ⟨false, "Print error: list index out of range", none⟩ := by decide

/-- C1 (amended): on a zero exit code, when stdout lacks the marker the
job is submitted with no identifier; when the marker is present and a
whitespace-delimited token follows it (before any further marker
occurrence), the job is submitted with that first token as identifier —
`PR1-42` for the documented sample output; but when the marker is
present with no token after it, the extraction raises and the call
reports failure instead. -/
theorem C1_job_id_extraction (p path errS : String) (hp : p ≠ "") (out : String) (c : Int) :
    (pyContains out REQUEST_ID_MARKER = false →
      (print_image (some p) c path (.completes ⟨0, out, errS⟩)).1 =
        ⟨true, "Print job submitted successfully", none⟩)
    ∧ (∀ (tok : String) (rest : List String),
        pyContains out REQUEST_ID_MARKER = true →
        pySplitWs ((pySplit out REQUEST_ID_MARKER).getD 1 "") = tok :: rest →
        (print_image (some p) c path (.completes ⟨0, out, errS⟩)).1 =
          ⟨true, "Print job submitted successfully", some tok⟩)
    ∧ (pyContains out REQUEST_ID_MARKER = true →
        pySplitWs ((pySplit out REQUEST_ID_MARKER).getD 1 "") = [] →
        (print_image (some p) c path (.completes ⟨0, out, errS⟩)).1 =
          ⟨false, "Print error: list index out of range", none⟩)
    ∧ (print_image (some p) c path
        (.completes ⟨0, "request id is PR1-42 (1 file(s))", errS⟩)).1 =
        ⟨true, "Print job submitted successfully", some "PR1-42"⟩ := by
  have hgen : ∀ (out2 tok : String) (rest : List String),
      pyContains out2 REQUEST_ID_MARKER = true →
      pySplitWs ((pySplit out2 REQUEST_ID_MARKER).getD 1 "") = tok :: rest →
      (print_image (some p) c path (.completes ⟨0, out2, errS⟩)).1 =
        ⟨true, "Print job submitted successfully", some tok⟩ := by
    intro out2 tok rest hc htok
    rw [List.getD_eq_getElem?_getD] at htok
    simp [print_image, hp, hc, htok]
  refine ⟨?_, fun tok rest hc htok => hgen out tok rest hc htok, ?_, ?_⟩
  · intro hnc
    simp [print_image, hp, hnc]
  · intro hc hnil
    rw [List.getD_eq_getElem?_getD] at hnil
    simp [print_image, hp, hc, hnil]
  · exact hgen "request id is PR1-42 (1 file(s))" "PR1-42" ["(1", "file(s))"]
      (by decide) (by decide)

/-- Witness for C1 (amended) at the documented sample output. -/
theorem C1_job_id_extraction_witness :
    (print_image (some "Office") 1 "/tmp/img.png"
        (.completes ⟨0, "request id is PR1-42 (1 file(s))", ""⟩)).1 =
      ⟨true, "Print job submitted successfully", some "PR1-42"⟩ :=
  (C1_job_id_extraction "Office" "/tmp/img.png" "" (by decide)
    "request id is PR1-42 (1 file(s))" 1).2.2.2

/-- C4: an authenticated `/print` request with a non-empty filename whose
extension is not allow-listed (and any filename without a period has no
allowed extension) gets a 400 validation error and the `lp` spooler
command is never built or executed. -/
theorem C4_extension_allowlist (cfg : Config) (req : PrintRequest) (tempPath : String)
    (p1 p2 : ProcBehavior)
    (hauth : require_api_key req.apiKeyHeader cfg.API_KEY = none)
    (f : String) (hf : req.imageField = some f) (hfe : f ≠ "")
    (hbad : allowed_file f = false) :
    (print_endpoint cfg req tempPath p1 p2).1 = .fail 400 EXT_ERROR_MSG
    ∧ (print_endpoint cfg req tempPath p1 p2).2 = none
    ∧ (∀ g : String, pyContains g "." = false → allowed_file g = false) := by
  refine ⟨?_, ?_, ?_⟩
  · simp [print_endpoint, hauth, hf, hfe, hbad]
  · simp [print_endpoint, hauth, hf, hfe, hbad]
  · intro g hg
    simp [allowed_file, hg]

/-- Witness for C4: `malware.exe` is rejected with 400 and no spooler
invocation. -/
theorem C4_extension_allowlist_witness :
    (print_endpoint ⟨"k", "Office"⟩ ⟨some "k", some "malware.exe", none⟩ "/tmp/t" .timesOut
        .timesOut).1 = .fail 400 EXT_ERROR_MSG
    ∧ (print_endpoint ⟨"k", "Office"⟩ ⟨some "k", some "malware.exe", none⟩ "/tmp/t" .timesOut
        .timesOut).2 = none := by
  have h := C4_extension_allowlist ⟨"k", "Office"⟩ ⟨some "k", some "malware.exe", none⟩
    "/tmp/t" .timesOut .timesOut (by decide) "malware.exe" rfl (by decide) (by decide)
  exact ⟨h.1, h.2.1⟩

/-- C5: whenever the `lp` submission completes with a non-zero exit code,
the `/print` response is the 500 failure body whose error text is
`Print failed: ` followed by the captured stderr. -/
theorem C5_spooler_failure (cfg : Config) (req : PrintRequest) (tempPath : String)
    (lpstatProc : ProcBehavior) (r : ProcResult)
    (hauth : require_api_key req.apiKeyHeader cfg.API_KEY = none)
    (f : String) (hf : req.imageField = some f) (hfe : f ≠ "")
    (hok : allowed_file f = true)
    (p : String) (hp : get_printer_name cfg.PRINTER_NAME lpstatProc = some p)
    (hpe : p ≠ "") (hrc : r.returncode ≠ 0) :
    (print_endpoint cfg req tempPath lpstatProc (.completes r)).1 =
      .printFailure ("Print failed: " ++ r.stderr)
    ∧ (print_endpoint cfg req tempPath lpstatProc (.completes r)).1.status = 500 := by
  have hmain : (print_endpoint cfg req tempPath lpstatProc (.completes r)).1 =
      .printFailure ("Print failed: " ++ r.stderr) := by
    simp [print_endpoint, hauth, hf, hfe, hok, print_image, hp, hpe, hrc]
  exact ⟨hmain, by rw [hmain]; rfl⟩

/-- Witness for C5 with stderr `no such printer`: the body is exactly
`{success: false, error: "Print failed: no such printer"}`. -/
theorem C5_spooler_failure_witness :
    (print_endpoint ⟨"k", "Office"⟩ ⟨some "k", some "cat.png", none⟩ "/tmp/t" .timesOut
        (.completes ⟨1, "", "no such printer"⟩)).1 =
      .printFailure "Print failed: no such printer"
    ∧ (print_endpoint ⟨"k", "Office"⟩ ⟨some "k", some "cat.png", none⟩ "/tmp/t" .timesOut
        (.completes ⟨1, "", "no such printer"⟩)).1.status = 500 :=
  C5_spooler_failure ⟨"k", "Office"⟩ ⟨some "k", some "cat.png", none⟩ "/tmp/t" .timesOut
    ⟨1, "", "no such printer"⟩ (by decide) "cat.png" rfl (by decide) (by decide)
    "Office" (by decide) (by decide) (by decide)

/-- Once the API-key guard has passed, `print_endpoint` can only answer
400, 200 or 500 — never an authentication status. -/
theorem authed_print_no_401_403 (cfg : Config) (req : PrintRequest) (tempPath : String)
    (p1 p2 : ProcBehavior)
    (hauth : require_api_key req.apiKeyHeader cfg.API_KEY = none) :
    (print_endpoint cfg req tempPath p1 p2).1.status ≠ 401
    ∧ (print_endpoint cfg req tempPath p1 p2).1.status ≠ 403 := by
  refine ⟨?_, ?_⟩ <;>
  · simp only [print_endpoint, hauth]
    split
    · simp [Response.status]
    · split
      · simp [Response.status]
      · split
        · simp [Response.status]
        · split <;> simp [Response.status]

/-- Once the API-key guard has passed, `list_printers` can only answer
200 or 500 — never an authentication status. -/
theorem authed_printers_no_401_403 (cfg : Config) (header : Option String)
    (p3 : ProcBehavior)
    (hauth : require_api_key header cfg.API_KEY = none) :
    (list_printers cfg header p3).status ≠ 401
    ∧ (list_printers cfg header p3).status ≠ 403 := by
  refine ⟨?_, ?_⟩ <;>
  · simp only [list_printers, hauth]
    rcases p3 with r | _ | msg <;> simp [Response.status]

/-- C3 counterexample: with the secret `s3cr3t` configured, a request that
does carry an `X-API-Key` header — with the empty string as value, which
is not equal to the secret — is answered 401, not the 403 the claim
requires for every present-but-wrong credential. -/
theorem C3_empty_header_counterexample :
    (print_endpoint ⟨"s3cr3t", ""⟩ ⟨some "", some "cat.png", none⟩ "/tmp/t" .timesOut
        .timesOut).1.status ≠ 403
    ∧ (print_endpoint ⟨"s3cr3t", ""⟩ ⟨some "", some "cat.png", none⟩ "/tmp/t" .timesOut
        .timesOut).1.status = 401 := by decide

/-- C3 (amended): an absent header yields 401; a present, NON-EMPTY header
different from the secret yields 403 (an empty header value is treated
as missing and yields 401); a header equal to a non-empty configured
secret never yields 401 or 403, on both guarded endpoints. -/
theorem C3_auth_guard (cfg : Config) (req : PrintRequest) (tempPath : String)
    (p1 p2 p3 : ProcBehavior) :
    (req.apiKeyHeader = none →
      (print_endpoint cfg req tempPath p1 p2).1.status = 401
      ∧ (list_printers cfg none p3).status = 401)
    ∧ (∀ k : String, req.apiKeyHeader = some k → k ≠ "" → k ≠ cfg.API_KEY →
      (print_endpoint cfg req tempPath p1 p2).1.status = 403
      ∧ (list_printers cfg (some k) p3).status = 403)
    ∧ (cfg.API_KEY ≠ "" → req.apiKeyHeader = some cfg.API_KEY →
      ((print_endpoint cfg req tempPath p1 p2).1.status ≠ 401
      ∧ (print_endpoint cfg req tempPath p1 p2).1.status ≠ 403
      ∧ (list_printers cfg (some cfg.API_KEY) p3).status ≠ 401
      ∧ (list_printers cfg (some cfg.API_KEY) p3).status ≠ 403)) := by
  refine ⟨?_, ?_, ?_⟩
  · intro h
    constructor
    · simp [print_endpoint, require_api_key, h, Response.status]
    · simp [list_printers, require_api_key, Response.status]
  · intro k hk hke hkne
    constructor
    · simp [print_endpoint, require_api_key, hk, hke, hkne, Response.status]
    · simp [list_printers, require_api_key, hke, hkne, Response.status]
  · intro hne hk
    have hauth : require_api_key req.apiKeyHeader cfg.API_KEY = none := by
      simp [require_api_key, hk, hne]
    have hauth2 : require_api_key (some cfg.API_KEY) cfg.API_KEY = none := by
      simp [require_api_key, hne]
    have h1 := authed_print_no_401_403 cfg req tempPath p1 p2 hauth
    have h2 := authed_printers_no_401_403 cfg (some cfg.API_KEY) p3 hauth2
    exact ⟨h1.1, h1.2, h2.1, h2.2⟩

/-- Witness for C3 (amended): a wrong non-empty key gets 403, the correct
key does not. -/
theorem C3_auth_guard_witness :
    (print_endpoint ⟨"k1", ""⟩ ⟨some "wrong", some "cat.png", none⟩ "/t" .timesOut
        .timesOut).1.status = 403
    ∧ (print_endpoint ⟨"k1", ""⟩ ⟨some "k1", some "cat.png", none⟩ "/t" .timesOut
        .timesOut).1.status ≠ 403 := by
  constructor
  · exact ((C3_auth_guard ⟨"k1", ""⟩ ⟨some "wrong", some "cat.png", none⟩ "/t" .timesOut
      .timesOut .timesOut).2.1 "wrong" rfl (by decide) (by decide)).1
  · exact ((C3_auth_guard ⟨"k1", ""⟩ ⟨some "k1", some "cat.png", none⟩ "/t" .timesOut
      .timesOut .timesOut).2.2 (by decide) rfl).2.1

/-- C9 counterexample: `lpstat` exiting with a non-zero code is a failure
of the status command, yet the handler never checks the exit code: it
parses the (empty) stdout and answers 200, not 500. -/
theorem C9_nonzero_exit_counterexample :
    (list_printers ⟨"k", ""⟩ (some "k")
        (.completes ⟨1, "", "lpstat: command failed"⟩)).status = 200
    ∧ (list_printers ⟨"k", ""⟩ (some "k")
        (.completes ⟨1, "", "lpstat: command failed"⟩)).status ≠ 500 := by decide

/-- C9 (amended): only an exception during the `lpstat` invocation — a
timeout or a spawn failure — reaches the catch-all and surfaces as a
generic 500 `{error: message}`; a run that completes is answered 200
whatever its exit code, its stdout parsed as usual. -/
theorem C9_listing_failure_500 (cfg : Config) (header : Option String)
    (hauth : require_api_key header cfg.API_KEY = none) :
    list_printers cfg header .timesOut = .fail 500 LPSTAT_TIMEOUT_MSG
    ∧ (∀ e : String, list_printers cfg header (.raises e) = .fail 500 e)
    ∧ (∀ r : ProcResult, (list_printers cfg header (.completes r)).status = 200) := by
  refine ⟨?_, ?_, ?_⟩
  · simp [list_printers, hauth]
  · intro e
    simp [list_printers, hauth]
  · intro r
    simp [list_printers, hauth, Response.status]

/-- Witness for C9 (amended) at a concrete configuration. -/
theorem C9_listing_failure_500_witness :
    list_printers ⟨"kk", ""⟩ (some "kk") .timesOut = .fail 500 LPSTAT_TIMEOUT_MSG
    ∧ list_printers ⟨"kk", ""⟩ (some "kk") (.raises "FileNotFoundError") =
        .fail 500 "FileNotFoundError" := by
  have h := C9_listing_failure_500 ⟨"kk", ""⟩ (some "kk") (by decide)
  exact ⟨h.1, h.2.1 "FileNotFoundError"⟩

/-- The `list_printers` parsing loop, characterized line-wise: starting
from `(ps, d)`, it appends the second token of every printer line in
order, and the default is taken from the last default-destination line,
falling back to `d`. -/
theorem lpstat_foldl_spec (lines : List String) :
    ∀ (ps : List String) (d : Option String),
      lines.foldl lpstat_line_step (ps, d) =
        (ps ++ (lines.filter printer_line).filterMap second_token,
          ((lines.reverse.find? default_line).map default_name).or d) := by
  induction lines with
  | nil => intro ps d; simp
  | cons l ls ih =>
    intro ps d
    rw [List.foldl_cons]
    by_cases hpl : pyStartsWith l "printer "
    · have hdl : default_line l = false := by simp [default_line, printer_line, hpl]
      have hsnd : (((l :: ls).reverse.find? default_line).map default_name).or d =
          ((ls.reverse.find? default_line).map default_name).or d := by
        rw [List.reverse_cons, List.find?_append, List.find?_cons_of_neg _ (by simp [hdl]),
          List.find?_nil, Option.or_none]
      by_cases hlen : 2 ≤ (pySplitWs l).length
      · have hstep : lpstat_line_step (ps, d) l = (ps ++ [(pySplitWs l).getD 1 ""], d) := by
          simp [lpstat_line_step, hpl, hlen]
        have hst : second_token l = some ((pySplitWs l).getD 1 "") :=
          get?_one_of_long _ _ hlen
        rw [hstep, ih, hsnd, List.filter_cons_of_pos (by simpa [printer_line] using hpl),
          List.filterMap_cons, hst, List.append_assoc, List.singleton_append]
      · have hstep : lpstat_line_step (ps, d) l = (ps, d) := by
          simp [lpstat_line_step, hpl, hlen]
        have hst : second_token l = none :=
          get?_one_of_short _ (by omega)
        rw [hstep, ih, hsnd, List.filter_cons_of_pos (by simpa [printer_line] using hpl),
          List.filterMap_cons, hst]
    · have hflt : (l :: ls).filter printer_line = ls.filter printer_line :=
        List.filter_cons_of_neg (by simpa [printer_line] using hpl)
      by_cases hcm : pyContains l DEFAULT_DEST_MARKER
      · have hdl : default_line l = true := by simp [default_line, printer_line, hpl, hcm]
        have hstep : lpstat_line_step (ps, d) l = (ps, some (default_name l)) := by
          simp [lpstat_line_step, hpl, hcm, default_name]
        rw [hstep, ih, hflt, List.reverse_cons, List.find?_append,
          List.find?_cons_of_pos _ hdl]
        rcases hfind : ls.reverse.find? default_line with _ | l2 <;> simp [hfind]
      · have hdl : default_line l = false := by simp [default_line, hcm]
        have hstep : lpstat_line_step (ps, d) l = (ps, d) := by
          simp [lpstat_line_step, hpl, hcm]
        rw [hstep, ih, hflt, List.reverse_cons, List.find?_append,
          List.find?_cons_of_neg _ (by simp [hdl]), List.find?_nil, Option.or_none]

/-- C8: for every captured `lpstat -p -d` output, the authenticated
`/printers` response lists the second whitespace-delimited token of each
printer line, in output order without de-duplication, the default
parsed from the last default-destination line (`none` if there is
none), and the operator's configured printer name. -/
theorem C8_printer_directory (cfg : Config) (header : Option String)
    (hauth : require_api_key header cfg.API_KEY = none) (r : ProcResult) :
    list_printers cfg header (.completes r) =
      .printerList
        (((pySplit r.stdout "\n").filter printer_line).filterMap second_token)
        (((pySplit r.stdout "\n").reverse.find? default_line).map default_name)
        cfg.PRINTER_NAME := by
  simp only [list_printers, hauth]
  unfold parse_lpstat
  rw [lpstat_foldl_spec (pySplit r.stdout "\n") [] none]
  simp

/-- Witness for C8 on a three-line sample output. -/
theorem C8_printer_directory_witness :
    list_printers ⟨"kk", "Cfg"⟩ (some "kk")
        (.completes ⟨0,
          "printer Office is idle.\nprinter Lobby disabled\nsystem default destination: Office\n",
          ""⟩)
      = .printerList ["Office", "Lobby"] (some "Office") "Cfg" := by
  have h := C8_printer_directory ⟨"kk", "Cfg"⟩ (some "kk") (by decide)
    ⟨0, "printer Office is idle.\nprinter Lobby disabled\nsystem default destination: Office\n",
      ""⟩
  rw [h]
  decide

/-- Witness for C6 at a concrete filesystem and body outcome. -/
theorem C6_temp_file_cleanup_witness :
    (print_with_cleanup ["/etc/hosts"] "/tmp/upload.png" true
        (.exception "boom")).2 = .exception "boom"
    ∧ (print_with_cleanup ["/etc/hosts"] "/tmp/upload.png" false
        (.response (.printFailure "x"))).1.contains "/tmp/upload.png" = false := by
  exact ⟨(C6_temp_file_cleanup ["/etc/hosts"] "/tmp/upload.png" (.exception "boom")).1 true,
    (C6_temp_file_cleanup ["/etc/hosts"] "/tmp/upload.png"
      (.response (.printFailure "x"))).2.1⟩
